import Mathlib

/-!
# Verification of the FHIRLightPatientLoader library

A shallow embedding of `FHIRLightPatientLoader.js` (version 0.0.7, the file
`src/unnamed/part_000` of the repository) together with proofs about it.

Modelling conventions, used consistently below:

* JS objects are duck-typed.  We embed every resource as one record type
  `Resource` whose fields are all optional (`Option`/`List`), matching the
  optional-chaining accesses (`x?.f`) of the source: `x?.f` becomes
  `Option.bind`/`Option.map`, `xs?.[0]` becomes `List.head?`,
  `xs?.some(f)` becomes `List.any` on `getD []`, `x ?? y` becomes `<|>`.
* JS datetime strings are abstracted at day granularity as `JSDate`
  records `(year, month, day)`; `new Date(s)` and `Date#toISOString` are
  the identity under this abstraction, `Date#getFullYear/getMonth/getDate`
  are the projections, and date comparison/subtraction is the
  lexicographic order `JSDate.le`.  An absent or unparsable date
  (`new Date(undefined)`, an invalid date) is modelled as `none`; JS
  relational comparisons against `NaN` are `false`, which `jsGEOpt`/`jsLEOpt`
  mirror.
* JS numbers are embedded as exact rationals `ℚ` (the float rounding of
  the source is abstracted away); the transcendental `Math.pow` used by
  `calculateEGFR` is `Real.rpow`, see further down.
* `Array.prototype.sort` with a comparator is stable (ES2019) and the
  comparators of the source are total preorders, so any stable sort
  computes the same list; we model it with the stable
  `List.insertionSort`.
* A JS value used in boolean position is tested for truthiness: for an
  optional number this is `jsFalsyNum` (absent or `0`), for an optional
  string `jsFalsyStr` (absent or `""`), for an optional integer
  `jsFalsyInt`.
* HumanName objects inside `Patient.name` are never inspected by the
  library, so they are embedded as opaque `String` tokens; likewise the
  entries of `referenceRange`.
-/

/-- A calendar date, standing for a JS `Date` at day granularity. -/
structure JSDate where
  year : Int
  month : Int
  day : Int
deriving DecidableEq, Repr

/-- Lexicographic order on dates; `new Date(a) - new Date(b) <= 0`. -/
def JSDate.le (a b : JSDate) : Prop :=
  a.year < b.year ∨ (a.year = b.year ∧
    (a.month < b.month ∨ (a.month = b.month ∧ a.day ≤ b.day)))

/-- Strict lexicographic order on dates; `new Date(a) > new Date(b)` is `JSDate.lt b a`. -/
def JSDate.lt (a b : JSDate) : Prop :=
  a.year < b.year ∨ (a.year = b.year ∧
    (a.month < b.month ∨ (a.month = b.month ∧ a.day < b.day)))

instance : DecidableRel JSDate.le := fun a b => by
  unfold JSDate.le; infer_instance

instance : DecidableRel JSDate.lt := fun a b => by
  unfold JSDate.lt; infer_instance

theorem JSDate.le_total (a b : JSDate) : JSDate.le a b ∨ JSDate.le b a := by
  unfold JSDate.le; omega

theorem JSDate.le_trans {a b c : JSDate} (h₁ : JSDate.le a b) (h₂ : JSDate.le b c) :
    JSDate.le a c := by
  unfold JSDate.le at *; omega

/-- JS `x >= y` on dates where either side may be an invalid date (`NaN`
compares `false`). -/
def jsGEOpt (a b : Option JSDate) : Bool :=
  match a, b with
  | some x, some y => decide (JSDate.le y x)
  | _, _ => false

/-- JS `x <= y` on dates where either side may be an invalid date. -/
def jsLEOpt (a b : Option JSDate) : Bool :=
  match a, b with
  | some x, some y => decide (JSDate.le x y)
  | _, _ => false

/-- JS `x > y` on dates where either side may be an invalid date. -/
def jsGTOpt (a b : Option JSDate) : Bool :=
  match a, b with
  | some x, some y => decide (JSDate.lt y x)
  | _, _ => false

/-- Order in which a JS stable comparator sort by a possibly-invalid date
key arranges two keys (invalid dates first; the source never sorts
invalid dates in the scenarios the claims are about). -/
def optDateLE (a b : Option JSDate) : Prop :=
  match a, b with
  | none, _ => True
  | some _, none => False
  | some x, some y => JSDate.le x y

instance : DecidableRel optDateLE := fun a b => by
  unfold optDateLE
  cases a <;> cases b <;> infer_instance

/-- Truthiness of an optional JS number: `!x` holds when absent or zero. -/
def jsFalsyNum (x : Option ℚ) : Bool :=
  match x with
  | none => true
  | some q => q == 0

/-- Truthiness of an optional JS integer: `!x` holds when absent or zero. -/
def jsFalsyInt (x : Option Int) : Bool :=
  match x with
  | none => true
  | some n => n == 0

/-- Truthiness of an optional JS string: `!x` holds when absent or empty. -/
def jsFalsyStr (x : Option String) : Bool :=
  match x with
  | none => true
  | some s => s == ""

/-- JS `String#includes`. -/
def jsIncludes (s sub : String) : Bool :=
  decide (sub.data <:+: s.data)

/-- JS `String#endsWith` (as a suffix test on the character list). -/
def jsEndsWith (s post : String) : Bool :=
  decide (post.data <:+ s.data)

/-- JS `String#startsWith` (as a prefix test on the character list). -/
def jsStartsWith (s pre : String) : Bool :=
  decide (pre.data <+: s.data)

/-- JS `ref.split('/').pop()`: the last `/`-separated segment. -/
def lastSeg (s : String) : String :=
  (s.splitOn "/").getLastD s

/-- JS `s.replace(/^urn:uuid:/, '')`. -/
def stripUrnUuid (s : String) : String :=
  if jsStartsWith s "urn:uuid:" then s.drop 9 else s

/-! ## The FHIR data model, as the library reads it -/

/-- A `coding` element. -/
structure Coding where
  system : Option String := none
  code : Option String := none
  display : Option String := none
deriving DecidableEq, Repr

/-- A CodeableConcept: `coding` list plus `text`. -/
structure CodeableConcept where
  coding : Option (List Coding) := none
  text : Option String := none
deriving DecidableEq, Repr

/-- A `valueQuantity`. -/
structure Quantity where
  value : Option ℚ := none
  unit : Option String := none
deriving DecidableEq, Repr

/-- A FHIR reference wrapper. -/
structure Reference where
  reference : Option String := none
deriving DecidableEq, Repr

/-- A Provenance `agent`. -/
structure Agent where
  type : Option CodeableConcept := none
deriving DecidableEq, Repr

/-- A DocumentReference attachment. -/
structure Attachment where
  data : Option String := none
  title : Option String := none
deriving DecidableEq, Repr

/-- One element of `DocumentReference.content`. -/
structure ContentItem where
  attachment : Option Attachment := none
deriving DecidableEq, Repr

/-- `DocumentReference.context` (an `encounter` reference list). -/
structure DocCtx where
  encounter : Option (List Reference) := none
deriving DecidableEq, Repr

/-- An object read only through its `display` field. -/
structure NameDisp where
  display : Option String := none
deriving DecidableEq, Repr

/-- One element of `Encounter.location`. -/
structure LocEntry where
  location : Option NameDisp := none
deriving DecidableEq, Repr

/-- One element of `Encounter.participant`. -/
structure Participant where
  individual : Option NameDisp := none
deriving DecidableEq, Repr

/-- A `period` with `start`/`end` datetimes. -/
structure Period where
  start : Option JSDate := none
  «end» : Option JSDate := none
deriving DecidableEq, Repr

/-- The `type` field is an array of CodeableConcepts on Encounters but a
single CodeableConcept on DocumentReferences; the library accesses it
both ways (`type?.[0]`, `type?.coding`), each returning `undefined` on
the other shape. -/
inductive TypeField where
  | ccList : List CodeableConcept → TypeField
  | cc : CodeableConcept → TypeField
deriving DecidableEq, Repr

/-- `type?.[0]` — defined only on the array shape. -/
def TypeField.index0 : TypeField → Option CodeableConcept
  | .ccList l => l.head?
  | .cc _ => none

/-- `type?.coding` (and `type?.text` style access) — defined only on the
object shape. -/
def TypeField.asCC : TypeField → Option CodeableConcept
  | .ccList _ => none
  | .cc c => some c

/-- A duck-typed FHIR resource: the union of every field path the
library reads, each optional, mirroring untyped JSON access. -/
structure Resource where
  resourceType : Option String := none
  id : Option String := none
  name : List String := []
  gender : Option String := none
  birthDate : Option JSDate := none
  category : Option (List CodeableConcept) := none
  code : Option CodeableConcept := none
  valueQuantity : Option Quantity := none
  valueString : Option String := none
  valueCodeableConcept : Option CodeableConcept := none
  effectiveDateTime : Option JSDate := none
  referenceRange : Option (List String) := none
  target : Option (List Reference) := none
  agent : Option (List Agent) := none
  status : Option String := none
  period : Option Period := none
  type : Option TypeField := none
  context : Option DocCtx := none
  encounter : Option Reference := none
  date : Option JSDate := none
  author : Option (List NameDisp) := none
  content : Option (List ContentItem) := none
  performedPeriod : Option Period := none
  performedDateTime : Option JSDate := none
  onsetDateTime : Option JSDate := none
  recordedDate : Option JSDate := none
  abatementDateTime : Option JSDate := none
  clinicalStatus : Option CodeableConcept := none
  reasonCode : Option (List CodeableConcept) := none
  location : Option (List LocEntry) := none
  participant : Option (List Participant) := none
  result : Option (List Reference) := none
  issued : Option JSDate := none
  medicationCodeableConcept : Option CodeableConcept := none
  medicationReference : Option Reference := none
  authoredOn : Option JSDate := none
  occurrenceDateTime : Option JSDate := none
  vaccineCode : Option CodeableConcept := none
  title : Option String := none
deriving DecidableEq, Repr

/-- One Bundle `entry` wrapper. -/
structure Entry where
  resource : Option Resource := none
deriving DecidableEq, Repr

/-- A parsed Bundle document: `{"entry": [...]}`. -/
structure Bundle where
  entry : Option (List Entry) := none
deriving DecidableEq, Repr

/-- The entry list of a Bundle (`fhirData.entry` or `[]`). -/
def Bundle.entries (b : Bundle) : List Entry :=
  b.entry.getD []

/-- Every resource of the Bundle, in entry order. -/
def Bundle.allResources (b : Bundle) : List Resource :=
  b.entries.filterMap (·.resource)

/-! ## createPatient: the Resource Indexer -/

/--
`processEntries(resourceType)` of `createPatient`:
`fhirData.entry?.filter(e => e.resource?.resourceType === rt)?.map(e => e.resource) || []`
(the JS filter-then-map over entries is fused into one `filterMap`).
-/
def processEntries (rt : String) (b : Bundle) : List Resource :=
  b.entries.filterMap fun e =>
    match e.resource with
    | some r => if r.resourceType == some rt then some r else none
    | none => none

/-- The resource of the first entry whose resource has
`resourceType === 'Patient'`
(`fhirData.entry?.find(e => e.resource?.resourceType === 'Patient')?.resource`). -/
def firstPatientResource (b : Bundle) : Option Resource :=
  (b.entries.find? fun e =>
    e.resource.any fun r => r.resourceType == some "Patient").bind (·.resource)

/-- The structured Patient object built by `createPatient`. -/
structure Patient where
  id : Option String
  name : Option String
  gender : Option String
  birthDate : Option JSDate
  encounters : List Resource
  conditions : List Resource
  observations : List Resource
  immunizations : List Resource
  diagnosticReports : List Resource
  documentReferences : List Resource
  claims : List Resource
  explanationOfBenefits : List Resource
  procedures : List Resource
  medicationRequests : List Resource
  careTeams : List Resource
  carePlans : List Resource
  provenances : List Resource
  devices : List Resource
  supplyDeliveries : List Resource
  medications : List Resource
  medicationAdministrations : List Resource
deriving DecidableEq, Repr

/-- `createPatient(fhirData)`: fails when no Patient resource is in the
Bundle, otherwise copies the demographics (`name` is `name?.[0]`) and
partitions all entries into the typed collections. -/
def createPatient (b : Bundle) : Except String Patient :=
  match firstPatientResource b with
  | none => .error "No Patient resource found in the Bundle"
  | some src => .ok {
      id := src.id
      name := src.name.head?
      gender := src.gender
      birthDate := src.birthDate
      encounters := processEntries "Encounter" b
      conditions := processEntries "Condition" b
      observations := processEntries "Observation" b
      immunizations := processEntries "Immunization" b
      diagnosticReports := processEntries "DiagnosticReport" b
      documentReferences := processEntries "DocumentReference" b
      claims := processEntries "Claim" b
      explanationOfBenefits := processEntries "ExplanationOfBenefit" b
      procedures := processEntries "Procedure" b
      medicationRequests := processEntries "MedicationRequest" b
      careTeams := processEntries "CareTeam" b
      carePlans := processEntries "CarePlan" b
      provenances := processEntries "Provenance" b
      devices := processEntries "Device" b
      supplyDeliveries := processEntries "SupplyDelivery" b
      medications := processEntries "Medication" b
      medicationAdministrations := processEntries "MedicationAdministration" b }

/-! ## Derived views over the Patient -/

/-- The `observation-category` code system URL. -/
def obsCategorySystem : String :=
  "http://terminology.hl7.org/CodeSystem/observation-category"

/-- The LOINC code system URL. -/
def loincSystem : String := "http://loinc.org"

/-- `obs.category?.some(cat => cat.coding?.some(c => c.system === obsCategorySystem && c.code === cat))`. -/
def hasCategoryCode (c : String) (obs : Resource) : Bool :=
  (obs.category.getD []).any fun cat =>
    (cat.coding.getD []).any fun cd =>
      cd.system == some obsCategorySystem && cd.code == some c

/-- `obs.code?.coding?.some(c => c.system === 'http://loinc.org' && c.code === code)`. -/
def hasLoinc (c : String) (obs : Resource) : Bool :=
  ((obs.code.bind (·.coding)).getD []).any fun cd =>
    cd.system == some loincSystem && cd.code == some c

/-- `getVitals()`. -/
def getVitals (p : Patient) : List Resource :=
  p.observations.filter (hasCategoryCode "vital-signs")

/-- `getObservationsByCategory(category)`. -/
def getObservationsByCategory (p : Patient) (c : String) : List Resource :=
  p.observations.filter (hasCategoryCode c)

/-- One point of a vital-sign trend: `{date, value, unit}`. -/
structure TrendPoint where
  date : Option JSDate
  value : Option ℚ
  unit : Option String
deriving DecidableEq, Repr

/-- Sort key order for records carrying an optional date. -/
def trendLE (a b : TrendPoint) : Prop := optDateLE a.date b.date

instance : DecidableRel trendLE := fun a b => by
  unfold trendLE; infer_instance

/-- `getVitalSignTrend(vitalType)`: filter vitals whose `code?.text`
contains the requested substring case-insensitively, project to
`(date, value, unit)`, sort ascending by date. -/
def getVitalSignTrend (p : Patient) (vitalType : String) : List TrendPoint :=
  (((getVitals p).filter fun v =>
      ((v.code.bind (·.text)).map fun t =>
        jsIncludes t.toLower vitalType.toLower).getD false).map fun v =>
    TrendPoint.mk v.effectiveDateTime
      (v.valueQuantity.bind (·.value)) (v.valueQuantity.bind (·.unit)))
    |>.insertionSort trendLE

/-- The `valueQuantity?.value` of the first observation carrying the
given LOINC code (the receiver of `.find(...)` in the source). -/
def firstObsValue (p : Patient) (loinc : String) : Option ℚ :=
  ((p.observations.find? (hasLoinc loinc)).bind (·.valueQuantity)).bind (·.value)

/-- `calculateBMI()`: value of the first weight (LOINC 29463-7) and first
height (LOINC 8302-2) observation; `null` when either is falsy, else
`weight / (height/100)^2`. -/
def calculateBMI (p : Patient) : Option ℚ :=
  let weight := firstObsValue p "29463-7"
  let height := firstObsValue p "8302-2"
  if jsFalsyNum weight || jsFalsyNum height then none
  else some ((weight.getD 0) / ((height.getD 0) / 100) ^ 2)

/-- `getAge()`, with the JS `new Date()` ("today") made an explicit
parameter: year difference, minus one when today's month/day precedes
the birth month/day. -/
def getAge (p : Patient) (today : JSDate) : Option Int :=
  match p.birthDate with
  | none => none
  | some birth =>
    let age := today.year - birth.year
    let monthDiff := today.month - birth.month
    some (if monthDiff < 0 ∨ (monthDiff = 0 ∧ today.day < birth.day)
      then age - 1 else age)

/-- `prov.target?.some(t => t.reference?.endsWith(resourceId))`. -/
def targetMatches (resourceId : String) (prov : Resource) : Bool :=
  (prov.target.getD []).any fun t =>
    (t.reference.map (fun ref => jsEndsWith ref resourceId)).getD false

/-- `getRelatedResources(resourceId, relationshipType)`: provenances whose
target matches AND which have an agent type coding whose `code` is
strictly equal (`===`) to `relationshipType`; when the call omits
`relationshipType` that comparison is against `undefined` (here `none`). -/
def getRelatedResources (p : Patient) (resourceId : String)
    (relationshipType : Option String) : List Resource :=
  p.provenances.filter fun prov =>
    targetMatches resourceId prov &&
    ((prov.agent.getD []).any fun ag =>
      ((ag.type.bind (·.coding)).getD []).any fun cd =>
        cd.code == relationshipType)

/-- One row of `getLabResultsChart()`. -/
structure LabRow where
  date : Option JSDate
  code : Option String
  value : Option ℚ
  unit : Option String
  referenceRange : Option String
deriving DecidableEq, Repr

/-- Sort key order for lab rows. -/
def labRowLE (a b : LabRow) : Prop := optDateLE a.date b.date

instance : DecidableRel labRowLE := fun a b => by
  unfold labRowLE; infer_instance

/-- `getLabResults()`. -/
def getLabResults (p : Patient) : List Resource :=
  getObservationsByCategory p "laboratory"

/-- `getLabResultsChart()`: project lab observations to rows and sort by date. -/
def getLabResultsChart (p : Patient) : List LabRow :=
  ((getLabResults p).map fun r =>
    LabRow.mk r.effectiveDateTime (r.code.bind (·.text))
      (r.valueQuantity.bind (·.value)) (r.valueQuantity.bind (·.unit))
      ((r.referenceRange.getD []).head?))
    |>.insertionSort labRowLE

/-- `getActiveMedications()`. -/
def getActiveMedications (p : Patient) : List Resource :=
  p.medicationRequests.filter fun med =>
    med.status == some "active" || med.status == some "on-hold"

/-- `getActiveConditions()`. -/
def getActiveConditions (p : Patient) : List Resource :=
  p.conditions.filter fun condition =>
    ((condition.clinicalStatus.bind (·.coding)).getD []).any fun cd =>
      cd.system == some "http://terminology.hl7.org/CodeSystem/condition-clinical" &&
      (cd.code == some "active" || cd.code == some "recurrence" ||
        cd.code == some "relapse")

/-- `getActiveCarePlans()`. -/
def getActiveCarePlans (p : Patient) : List Resource :=
  p.carePlans.filter fun plan =>
    plan.status == some "active" || plan.status == some "on-hold"

/-- The base64 alphabet characters accepted by `isBase64`. -/
def isB64Char (c : Char) : Bool :=
  c.isAlphanum || c == '+' || c == '/'

/-- `isBase64(str)`: after trimming, non-empty, length a multiple of 4,
and matching `^[A-Za-z0-9+/]+={0,2}$` (a non-empty alphabet body
followed by at most two `=` pads). -/
def isBase64 (str : String) : Bool :=
  let clean := str.trim
  let cs := clean.data
  let pad := (cs.reverse.takeWhile (· == '=')).length
  let body := (cs.reverse.dropWhile (· == '=')).reverse
  decide (0 < cs.length) && cs.length % 4 == 0 &&
    decide (0 < body.length) && pad ≤ 2 && body.all isB64Char

/-- One record of `getClinicalNotesHistory()`. -/
structure NoteRec where
  id : Option String
  date : Option JSDate
  author : Option String
  encounterId : Option String
  noteType : Option String
  rawData : String
  text : String
deriving DecidableEq, Repr

/-- Sort key order for clinical notes. -/
def noteLE (a b : NoteRec) : Prop := optDateLE a.date b.date

instance : DecidableRel noteLE := fun a b => by
  unfold noteLE; infer_instance

/-- The clinical-note filter on document references:
`dr.category?.some(cat => cat.coding?.some(c => c.code === 'clinical-note'))`. -/
def isClinicalNote (dr : Resource) : Bool :=
  (dr.category.getD []).any fun cat =>
    (cat.coding.getD []).any fun cd => cd.code == some "clinical-note"

/-- The record `getClinicalNotesHistory` builds for one document
reference.  The browser global `atob` is passed explicitly as `ab` (the
source guards on `typeof atob === 'function'`; we model the environment
where it exists).  The dead `!this.documentReferences` guard of the
source is unreachable for patients built by `createPatient`, which
always sets the collection to an array. -/
def noteOf (ab : String → String) (decode : Bool) (dr : Resource) : NoteRec :=
  let attachment := (((dr.content.getD []).head?).bind (·.attachment)).getD ⟨none, none⟩
  let payload := attachment.data.getD ""
  let isB64 := isBase64 payload
  let text := if decode && isB64 then ab payload else payload
  { id := dr.id
    date := dr.date
    author := ((dr.author.getD []).head?).bind (·.display)
    encounterId := ((((dr.context.bind (·.encounter)).getD []).head?).bind
      (·.reference)).map lastSeg
    noteType := ((((dr.type.bind TypeField.asCC).bind (·.coding)).getD []).head?).bind
      (·.display)
    rawData := payload
    text := text }

/-- `getClinicalNotesHistory(opts)`: clinical-note document references
projected through `noteOf` and sorted by date. -/
def getClinicalNotesHistory (ab : String → String) (p : Patient)
    (decode : Bool) : List NoteRec :=
  ((p.documentReferences.filter isClinicalNote).map (noteOf ab decode))
    |>.insertionSort noteLE

/-- `summarizeObservation(obs)`: quantity as `"value unit"` (JS coerces a
missing number to the string `"undefined"`), else a truthy `valueString`,
else a truthy `valueCodeableConcept?.text`, else `undefined`. -/
def summarizeObservation (obs : Resource) : Option String :=
  match obs.valueQuantity with
  | some vq =>
    some (((match vq.value with
      | some v => toString v
      | none => "undefined") ++ " " ++ vq.unit.getD "").trim)
  | none =>
    match obs.valueString with
    | some s =>
      if s != "" then some s
      else match obs.valueCodeableConcept.bind (·.text) with
        | some t => if t != "" then some t else none
        | none => none
    | none =>
      match obs.valueCodeableConcept.bind (·.text) with
      | some t => if t != "" then some t else none
      | none => none

/-- Sort key order for observations by `effectiveDateTime`
(`getObservationHistory`'s final sort). -/
def obsDateLE (a b : Resource) : Prop :=
  optDateLE a.effectiveDateTime b.effectiveDateTime

instance : DecidableRel obsDateLE := fun a b => by
  unfold obsDateLE; infer_instance

/-- `getObservationHistory(category, startDate, endDate)`: category
observations inside the (optional) date window, sorted by date.  The JS
comparisons `obsDate >= startDate` / `obsDate <= endDate` are false when
the observation date is invalid. -/
def getObservationHistory (p : Patient) (c : String)
    (startDate endDate : Option JSDate) : List Resource :=
  ((getObservationsByCategory p c).filter fun obs =>
    (match startDate with
      | none => true
      | some sd => jsGEOpt obs.effectiveDateTime (some sd)) &&
    (match endDate with
      | none => true
      | some ed => jsLEOpt obs.effectiveDateTime (some ed)))
    |>.insertionSort obsDateLE

/-- One row of `getEncounterTimeline()`. -/
structure TimelineRow where
  id : Option String
  type : Option String
  date : Option JSDate
  endDate : Option JSDate
  status : Option String
deriving DecidableEq, Repr

/-- Sort key order for encounter timeline rows. -/
def timelineLE (a b : TimelineRow) : Prop := optDateLE a.date b.date

instance : DecidableRel timelineLE := fun a b => by
  unfold timelineLE; infer_instance

/-- `getEncounterTimeline()`: encounters projected to
`{id, type, date, endDate, status}` sorted by start date. -/
def getEncounterTimeline (p : Patient) : List TimelineRow :=
  (p.encounters.map fun encounter =>
    TimelineRow.mk encounter.id
      (((encounter.type.bind TypeField.index0)).bind (·.text))
      (encounter.period.bind (·.start))
      (encounter.period.bind (·.«end»))
      encounter.status)
    |>.insertionSort timelineLE

/-! ## getPatientEventHistory -/

/-- The metadata object of an event record: the base fields
`encounterId`, `status`, `ageAtEvent` plus the per-resource-type extras
spread over them.  (The `status` extra passed for procedures, medication
requests and care plans is `r.status` again, the same value the base
already holds, so the spread never changes it.) -/
structure MetaRec where
  encounterId : Option String := none
  status : Option String := none
  ageAtEvent : Option Int := none
  location : Option String := none
  provider : Option String := none
  clinicalStatus : Option String := none
  author : Option String := none
  text : Option String := none
  result : Option String := none
deriving DecidableEq, Repr

/-- The metadata object with every candidate field absent (the
`Object.values(...).some(v => v !== undefined)` test fails exactly here). -/
def MetaRec.empty : MetaRec := {}

/-- One `{start, end, type, label, resourceType, id, metadata}` record of
the unified event history. -/
structure EventRec where
  start : JSDate
  «end» : Option JSDate
  type : String
  label : String
  resourceType : Option String
  id : Option String
  metadata : Option MetaRec
deriving DecidableEq, Repr

/-- The comparator `(a, b) => new Date(a.start) - new Date(b.start)`. -/
def eventLE (a b : EventRec) : Prop := JSDate.le a.start b.start

instance : DecidableRel eventLE := fun a b => by
  unfold eventLE; infer_instance

instance : IsTotal EventRec eventLE :=
  ⟨fun a b => JSDate.le_total a.start b.start⟩

instance : IsTrans EventRec eventLE :=
  ⟨fun _ _ _ h₁ h₂ => JSDate.le_trans h₁ h₂⟩

/-- The `extra` argument of one `push(...)` call. -/
structure ExtraMeta where
  location : Option String := none
  provider : Option String := none
  clinicalStatus : Option String := none
  author : Option String := none
  text : Option String := none
  result : Option String := none
deriving DecidableEq, Repr

/-- The arguments of one `push(r, s, e, t, lbl, extra)` call. -/
structure Candidate where
  r : Resource
  s : Option JSDate
  e : Option JSDate
  t : String
  lbl : String
  extra : ExtraMeta := {}
deriving DecidableEq, Repr

/-- `ageAt(dateISO)` of `getPatientEventHistory`: age at the event date
relative to the patient's birth date, `undefined` when the birth date is
missing (the event date is always present at the call sites modelled). -/
def ageAt (birthDate : Option JSDate) (eventDate : JSDate) : Option Int :=
  match birthDate with
  | none => none
  | some birth =>
    let age := eventDate.year - birth.year
    let m := eventDate.month - birth.month
    some (if m < 0 ∨ (m = 0 ∧ eventDate.day < birth.day) then age - 1 else age)

/-- The `encounterId` metadata field:
`(r.context?.encounter?.[0]?.reference?.split('/').pop() ?? r.encounter?.reference?.split('/').pop() ?? undefined)?.replace(/^urn:uuid:/, '')`. -/
def encounterIdOf (r : Resource) : Option String :=
  (((((r.context.bind (·.encounter)).getD []).head?).bind (·.reference)).map lastSeg
    <|> ((r.encounter.bind (·.reference)).map lastSeg)).map stripUrnUuid

/-- The body of `push`: skip candidates without a start (`if (!s) return`),
otherwise build the event record, dropping the metadata object when all
of its fields are absent. -/
def mkEvent (birthDate : Option JSDate) (c : Candidate) : Option EventRec :=
  match c.s with
  | none => none
  | some s =>
    let md : MetaRec :=
      { encounterId := encounterIdOf c.r
        status := c.r.status
        ageAtEvent := ageAt birthDate s
        location := c.extra.location
        provider := c.extra.provider
        clinicalStatus := c.extra.clinicalStatus
        author := c.extra.author
        text := c.extra.text
        result := c.extra.result }
    some
      { start := s
        «end» := c.e
        type := c.t
        label := c.lbl
        resourceType := c.r.resourceType
        id := c.r.id
        metadata := if md = MetaRec.empty then none else some md }

/-- `labelForObs(obs)`.  JS string concatenation renders a missing
display as the literal text `"undefined"`. -/
def labelForObs (obs : Resource) : String :=
  let cat := ((((obs.category.getD []).head?).bind (·.coding)).getD []).head?.bind (·.code)
  let display := (((obs.code.bind (·.coding)).getD []).head?).bind (·.display)
  let disp := display.getD "undefined"
  if cat == some "vital-signs" then "Vital - " ++ disp
  else if cat == some "imaging" then "Imaging - " ++ disp
  else if cat == some "laboratory" then "Lab - " ++ disp
  else "Test - " ++ disp

/-- The encounter block of `getPatientEventHistory`. -/
def encCandidate (enc : Resource) : Candidate :=
  let type := ((((enc.type.bind TypeField.index0)).bind (·.coding)).getD []).head?.bind
    (·.display) |>.getD "Encounter"
  let reason := ((((enc.reasonCode.getD []).head?).bind (·.coding)).getD []).head?.bind
    (·.display)
  let location := (((enc.location.getD []).head?).bind (·.location)).bind (·.display)
  let provider := (((enc.participant.getD []).head?).bind (·.individual)).bind (·.display)
  let label := if !(jsFalsyStr reason) then type ++ " - " ++ reason.getD "" else type
  { r := enc
    s := enc.period.bind (·.start)
    e := enc.period.bind (·.«end»)
    t := "Encounter"
    lbl := label
    extra := { location := location, provider := provider } }

/-- The procedure block: `performedPeriod ?? {}` with `performedDateTime`
fallbacks. -/
def procCandidate (proc : Resource) : Candidate :=
  { r := proc
    s := (proc.performedPeriod.bind (·.start)) <|> proc.performedDateTime
    e := (proc.performedPeriod.bind (·.«end»)) <|> proc.performedDateTime
    t := "Procedure"
    lbl := (proc.code.bind (·.text)).getD "Procedure" }

/-- The condition block. -/
def condCandidate (cond : Resource) : Candidate :=
  { r := cond
    s := cond.onsetDateTime <|> cond.recordedDate
    e := cond.abatementDateTime
    t := "Diagnosis"
    lbl := (cond.code.bind (·.text)).getD "Diagnosis"
    extra := { clinicalStatus :=
      (((cond.clinicalStatus.bind (·.coding)).getD []).head?).bind (·.code) } }

/-- The clinical-note document-reference block. -/
def noteCandidate (ab : String → String) (dr : Resource) : Candidate :=
  let att := (((dr.content.getD []).head?).bind (·.attachment)).getD ⟨none, none⟩
  let text :=
    if !(jsFalsyStr att.data) && isBase64 (att.data.getD "")
    then ab (att.data.getD "")
    else (att.title.getD "")
  { r := dr
    s := dr.date
    e := none
    t := "Clinical Note"
    lbl := (((((dr.type.bind TypeField.asCC).bind (·.coding)).getD []).head?).bind
      (·.display)).getD "Clinical note"
    extra := { author := ((dr.author.getD []).head?).bind (·.display)
               text := if text == "" then none else some text } }

/-- The diagnostic-report block: resolve the first `result` reference
against the observation collection. -/
def reportCandidate (observations : List Resource) (dr : Resource) : Candidate :=
  let resultObs := (((dr.result.getD []).head?).bind (·.reference)).map lastSeg
  let obs := resultObs.bind fun rid => observations.find? fun o => o.id == some rid
  { r := dr
    s := dr.effectiveDateTime <|> dr.issued
    e := none
    t := "Test"
    lbl := match obs with
      | some o => labelForObs o
      | none => (dr.code.bind (·.text)).getD "Diagnostic Report"
    extra := { result := obs.bind summarizeObservation } }

/-- The category filter of the observation block:
`obs.category?.some(c => ['laboratory','imaging','vital-signs'].includes(c.coding?.[0]?.code))`. -/
def obsInEventCategories (obs : Resource) : Bool :=
  (obs.category.getD []).any fun c =>
    match ((c.coding.getD []).head?).bind (·.code) with
    | some cd => cd == "laboratory" || cd == "imaging" || cd == "vital-signs"
    | none => false

/-- The observation block. -/
def obsCandidate (obs : Resource) : Candidate :=
  { r := obs
    s := obs.effectiveDateTime
    e := none
    t := "Test"
    lbl := labelForObs obs
    extra := { result := summarizeObservation obs } }

/-- The medication-request block: the medication name falls back to the
referenced Medication resource (`endsWith` coerces a missing id to the
string `"undefined"`). -/
def mrCandidate (medications : List Resource) (mr : Resource) : Candidate :=
  let name := (mr.medicationCodeableConcept.bind (·.text)) <|>
    ((medications.find? fun m =>
      ((mr.medicationReference.bind (·.reference)).map
        (fun ref => jsEndsWith ref (m.id.getD "undefined"))).getD false).bind
      fun m => m.code.bind (·.text))
  { r := mr
    s := mr.authoredOn
    e := if mr.status == some "completed" then mr.authoredOn else none
    t := "Medication"
    lbl := name.getD "Medication" }

/-- The immunization block. -/
def immCandidate (imm : Resource) : Candidate :=
  { r := imm
    s := imm.occurrenceDateTime
    e := none
    t := "Immunization"
    lbl := (imm.vaccineCode.bind (·.text)).getD "Immunization" }

/-- The care-plan block. -/
def cpCandidate (cp : Resource) : Candidate :=
  { r := cp
    s := cp.period.bind (·.start)
    e := cp.period.bind (·.«end»)
    t := "CarePlan"
    lbl := cp.title.getD "Care plan" }

/-- Every `push` call of `getPatientEventHistory`, in program order:
encounters, procedures, conditions, clinical-note document references,
diagnostic reports, category-tagged observations, medication requests,
immunizations, care plans. -/
def eventCandidates (ab : String → String) (p : Patient) : List Candidate :=
  (p.encounters.map encCandidate) ++
  (p.procedures.map procCandidate) ++
  (p.conditions.map condCandidate) ++
  ((p.documentReferences.filter isClinicalNote).map (noteCandidate ab)) ++
  (p.diagnosticReports.map (reportCandidate p.observations)) ++
  ((p.observations.filter obsInEventCategories).map obsCandidate) ++
  (p.medicationRequests.map (mrCandidate p.medications)) ++
  (p.immunizations.map immCandidate) ++
  (p.carePlans.map cpCandidate)

/-- `getPatientEventHistory()`: push every candidate with a start
timestamp, then stable-sort ascending by start. -/
def getPatientEventHistory (ab : String → String) (p : Patient) : List EventRec :=
  ((eventCandidates ab p).filterMap (mkEvent p.birthDate)).insertionSort eventLE

/-! ## calculateEGFR

The only place the library computes with transcendental functions
(`Math.pow` with non-integer exponents).  The float arithmetic of the
source is abstracted to exact real arithmetic: `Math.pow` becomes
`Real.rpow` and `Number(x.toFixed(1))` becomes rounding to the nearest
tenth (ties up, as `toFixed` rounds).  These definitions are therefore
noncomputable; every structural part of the function (which observation
is found, the missing-input test) stays computable above them.
-/

/-- `Number(x.toFixed(1))`: round to one decimal place. -/
noncomputable def round1 (x : ℝ) : ℝ := (round (10 * x) : ℤ) / 10

/-- `creatinineObs?.valueQuantity?.value` for the first observation with
LOINC code 2160-0. -/
def creatinineValue (p : Patient) : Option ℚ :=
  firstObsValue p "2160-0"

/-- The CKD-EPI expression of the source:
`141 * min^a * max^(-1.209) * 0.993^age`, rounded to one decimal. -/
noncomputable def egfrExpr (creatinineMgdl : ℚ) (age : ℤ) (female : Bool) : ℝ :=
  let k : ℝ := if female then 0.7 else 0.9
  let a : ℝ := if female then -0.329 else -0.411
  let mn : ℝ := min ((creatinineMgdl : ℝ) / k) 1
  let mx : ℝ := max ((creatinineMgdl : ℝ) / k) 1
  round1 (141 * mn ^ a * mx ^ (-1.209 : ℝ) * (0.993 : ℝ) ^ (age : ℝ))

/-- `calculateEGFR()`: `0` when `!creatinineObs?.valueQuantity?.value`,
`!age` or `!gender` (JS truthiness), else the CKD-EPI expression with
`gender === 'female'` selecting the parameters. -/
noncomputable def calculateEGFR (p : Patient) (today : JSDate) : ℝ :=
  let cr := creatinineValue p
  let age := getAge p today
  let gender := p.gender
  if jsFalsyNum cr || jsFalsyInt age || jsFalsyStr gender then 0
  else egfrExpr (cr.getD 0) (age.getD 0) (gender == some "female")

/-! ## The batch loader (`loadPatient`, `processFiles`)

I/O is modelled by an explicit oracle `fetch : String → Except String Bundle`
standing for the HTTP GET plus JSON parse of one location: an `.error`
is a non-OK response or a parse failure with that message, an `.ok` is
the parsed Bundle.  The `onProgress` callback only reports counts and is
side-effect-only, so it is not modelled.  Within a chunk the source
pushes results in promise-completion order, which ES leaves unspecified;
we fix the deterministic interleaving that completes in input order
(the claims only depend on counts and on the first error, which agree
across interleavings).
-/

/-- `loadPatient(filePath)`: fetch, parse, `createPatient`, every failure
wrapped in `Error loading patient data: ...`. -/
def loadPatient (fetch : String → Except String Bundle) (filePath : String) :
    Except String Patient :=
  match fetch filePath with
  | .error e => .error ("Error loading patient data: " ++ e)
  | .ok jsonData =>
    match createPatient jsonData with
    | .error e => .error ("Error loading patient data: " ++ e)
    | .ok p => .ok p

/-- The JSON-source filter of `processFiles`:
`file.endsWith('.json') || file.includes('fhir')` (every source in this
model is a string, so the `typeof` guard always passes). -/
def isJsonSource (file : String) : Bool :=
  jsEndsWith file ".json" || jsIncludes file "fhir"

/-- Path construction of `processFiles`: absolute `http` locations pass
through, otherwise a truthy base path is prefixed. -/
def resolvePath (basePath file : String) : String :=
  if jsStartsWith file "http" then file
  else if basePath != "" then basePath ++ "/" ++ file
  else file

/-- The chunking loop `for (let i = 0; i < n; i += batchSize)`, with an
explicit fuel argument (structural recursion so that concrete instances
compute): with positive batch size the loop runs at most `l.length`
iterations, so `chunks` below supplies that fuel. -/
def chunksAux (batchSize : ℕ) : ℕ → List α → List (List α)
  | 0, _ => []
  | _, [] => []
  | fuel + 1, x :: xs =>
    if batchSize = 0 then []
    else (x :: xs).take batchSize :: chunksAux batchSize fuel ((x :: xs).drop batchSize)

/-- The chunk list of `processFiles`.  For `batchSize = 0` the source
never terminates; this definition returns `[]` there and every theorem
assumes a positive batch size. -/
def chunks (batchSize : ℕ) (l : List α) : List (List α) :=
  chunksAux batchSize l.length l

/-- Processing one file of a batch: a success appends the patient, a
failure appends `{file, error}` when `continueOnError`, otherwise the
whole batch rejects with that error. -/
def fileStep (fetch : String → Except String Bundle) (basePath : String)
    (continueOnError : Bool)
    (acc : List Patient × List (String × String)) (file : String) :
    Except String (List Patient × List (String × String)) :=
  match loadPatient fetch (resolvePath basePath file) with
  | .ok patient => .ok (acc.1 ++ [patient], acc.2)
  | .error e =>
    if continueOnError then .ok (acc.1, acc.2 ++ [(file, e)])
    else .error e

/-- The aggregate result of `processFiles`. -/
structure BatchSummary where
  total : ℕ
  successful : ℕ
  failed : ℕ
deriving DecidableEq, Repr

/-- `{patients, errors, summary}`; `errors` is `null` when empty. -/
structure BatchResult where
  patients : List Patient
  errors : Option (List (String × String))
  summary : BatchSummary
deriving DecidableEq, Repr

/-- `processFiles(files, {batchSize, continueOnError}, basePath)`. -/
def processFiles (fetch : String → Except String Bundle) (files : List String)
    (batchSize : ℕ) (continueOnError : Bool) (basePath : String) :
    Except String BatchResult :=
  let jsonFiles := files.filter isJsonSource
  if jsonFiles = [] then .error "No valid FHIR JSON files found"
  else
    match (chunks batchSize jsonFiles).foldlM
        (fun acc batch => batch.foldlM (fileStep fetch basePath continueOnError) acc)
        ([], []) with
    | .error e => .error e
    | .ok (patients, errors) =>
      if patients = [] ∧ errors ≠ [] then
        .error ("Failed to load any patients. First error: " ++
          ((errors.head?.map Prod.snd).getD ""))
      else
        .ok { patients := patients
              errors := if errors = [] then none else some errors
              summary := { total := jsonFiles.length
                           successful := patients.length
                           failed := errors.length } }

/-! ## State-passing translations of the derived views

The accessors above are pure projections.  To express the frame property
"calling a view mutates nothing" we also give each view a state-passing
translation `Patient → result × Patient` in which every JS statement
threads the patient object: an operation that mutated an array held in a
patient field would have to return an updated patient here.  The only
mutating array method the source applies is `Array#sort`, and each of
its receivers is a fresh array built by `map`/`filter` inside the view
(`jsSortNew` below), so no translation step ever rebuilds the patient. -/

/-- JS `receiver.sort(cmp)` applied to a freshly created array: sorts the
temporary in place, leaving every patient field untouched. -/
def jsSortNew (r : α → α → Prop) [DecidableRel r] (l : List α) : List α :=
  l.insertionSort r

/-- `getVitals()` threading the patient state. -/
def getVitalsRun (p : Patient) : List Resource × Patient :=
  let res := p.observations.filter (hasCategoryCode "vital-signs")
  (res, p)

/-- `getVitalSignTrend(vitalType)` threading the patient state. -/
def getVitalSignTrendRun (p : Patient) (vitalType : String) :
    List TrendPoint × Patient :=
  let (vitals, p) := getVitalsRun p
  let filtered := vitals.filter fun v =>
    ((v.code.bind (·.text)).map fun t =>
      jsIncludes t.toLower vitalType.toLower).getD false
  let mapped := filtered.map fun v =>
    TrendPoint.mk v.effectiveDateTime
      (v.valueQuantity.bind (·.value)) (v.valueQuantity.bind (·.unit))
  (jsSortNew trendLE mapped, p)

/-- `getLabResultsChart()` threading the patient state. -/
def getLabResultsChartRun (p : Patient) : List LabRow × Patient :=
  let labResults := p.observations.filter (hasCategoryCode "laboratory")
  let mapped := labResults.map fun r =>
    LabRow.mk r.effectiveDateTime (r.code.bind (·.text))
      (r.valueQuantity.bind (·.value)) (r.valueQuantity.bind (·.unit))
      ((r.referenceRange.getD []).head?)
  (jsSortNew labRowLE mapped, p)

/-- `getClinicalNotesHistory(opts)` threading the patient state. -/
def getClinicalNotesHistoryRun (ab : String → String) (p : Patient)
    (decode : Bool) : List NoteRec × Patient :=
  let docs := p.documentReferences.filter isClinicalNote
  let mapped := docs.map (noteOf ab decode)
  (jsSortNew noteLE mapped, p)

/-- `getPatientEventHistory()` threading the patient state (the `events`
array is local; `push` only ever appends to it). -/
def getPatientEventHistoryRun (ab : String → String) (p : Patient) :
    List EventRec × Patient :=
  let events := (eventCandidates ab p).filterMap (mkEvent p.birthDate)
  (jsSortNew eventLE events, p)

/-- `getObservationHistory(category, startDate, endDate)` threading the
patient state. -/
def getObservationHistoryRun (p : Patient) (c : String)
    (startDate endDate : Option JSDate) : List Resource × Patient :=
  let observations := p.observations.filter (hasCategoryCode c)
  let filtered := observations.filter fun obs =>
    (match startDate with
      | none => true
      | some sd => jsGEOpt obs.effectiveDateTime (some sd)) &&
    (match endDate with
      | none => true
      | some ed => jsLEOpt obs.effectiveDateTime (some ed))
  (jsSortNew obsDateLE filtered, p)

/-- `getEncounterTimeline()` threading the patient state. -/
def getEncounterTimelineRun (p : Patient) : List TimelineRow × Patient :=
  let mapped := p.encounters.map fun encounter =>
    TimelineRow.mk encounter.id
      (((encounter.type.bind TypeField.index0)).bind (·.text))
      (encounter.period.bind (·.start))
      (encounter.period.bind (·.«end»))
      encounter.status
  (jsSortNew timelineLE mapped, p)

/-! ## Claims -/

/-- Whether some entry's resource is a Patient (the search predicate of
`createPatient`). -/
def entryIsPatient (e : Entry) : Bool :=
  e.resource.any fun r => r.resourceType == some "Patient"

theorem firstPatientResource_eq_none_iff (b : Bundle) :
    firstPatientResource b = none ↔
      ∀ e ∈ b.entries, ∀ r, e.resource = some r → r.resourceType ≠ some "Patient" := by
  unfold firstPatientResource
  constructor
  · intro h e he r hr hrt
    cases hf : b.entries.find? (fun e => e.resource.any fun r => r.resourceType == some "Patient") with
    | none =>
      have := List.find?_eq_none.mp hf e he
      simp [hr, hrt] at this
    | some e' =>
      have hpred := List.find?_some hf
      rw [hf] at h
      cases hres : e'.resource with
      | none => simp [hres] at hpred
      | some r' => simp [hres] at h
  · intro h
    cases hf : b.entries.find? (fun e => e.resource.any fun r => r.resourceType == some "Patient") with
    | none => simp
    | some e' =>
      exfalso
      have hpred := List.find?_some hf
      have hmem := List.mem_of_find?_eq_some hf
      cases hres : e'.resource with
      | none => simp [hres] at hpred
      | some r' =>
        simp [hres] at hpred
        exact h e' hmem r' hres hpred

/-- Claim C1 (amended): `createPatient` fails with the
MissingPatientResource error exactly when no entry's resource has
resourceType `Patient`; when one exists, the returned Patient's `id`,
`gender` and `birthDate` equal the source Patient resource's fields and
its `name` is the FIRST element of the source resource's `name` list. -/
theorem fhirC1_theorem (b : Bundle) :
    (createPatient b = .error "No Patient resource found in the Bundle" ↔
      ∀ e ∈ b.entries, ∀ r, e.resource = some r → r.resourceType ≠ some "Patient")
    ∧ (∀ p src, createPatient b = .ok p → firstPatientResource b = some src →
        p.id = src.id ∧ p.name = src.name.head? ∧ p.gender = src.gender ∧
        p.birthDate = src.birthDate) := by
  constructor
  · rw [← firstPatientResource_eq_none_iff]
    unfold createPatient
    cases h : firstPatientResource b with
    | none => simp
    | some src => simp
  · intro p src hp hsrc
    unfold createPatient at hp
    rw [hsrc] at hp
    cases hp
    exact ⟨rfl, rfl, rfl, rfl⟩

/-- The Patient resource of the first counterexample bundle for C1:
`name` has one entry. -/
def srcC1a : Resource :=
  { resourceType := some "Patient", id := some "p1", name := ["HumanNameA"],
    gender := some "female", birthDate := some ⟨1990, 6, 15⟩ }

/-- The Patient resource of the second counterexample bundle for C1:
same demographics but a two-entry `name` list. -/
def srcC1b : Resource :=
  { resourceType := some "Patient", id := some "p1", name := ["HumanNameA", "HumanNameB"],
    gender := some "female", birthDate := some ⟨1990, 6, 15⟩ }

/-- Bundle containing only `srcC1a`. -/
def bC1a : Bundle := ⟨some [⟨some srcC1a⟩]⟩

/-- Bundle containing only `srcC1b`. -/
def bC1b : Bundle := ⟨some [⟨some srcC1b⟩]⟩

/-- Claim C1 counterexample: two bundles whose Patient resources carry
different `name` fields produce identical `createPatient` outputs, so
the returned `name` does not equal the source resource's `name` field
(the source keeps only `name?.[0]`). -/
theorem fhirC1_counterexample :
    createPatient bC1a = createPatient bC1b ∧
    (firstPatientResource bC1a).map (·.name) ≠
      (firstPatientResource bC1b).map (·.name) := by
  constructor
  · rfl
  · decide

/-- The Patient value `createPatient` builds from `bC1a`. -/
def pC1 : Patient :=
  { id := some "p1", name := some "HumanNameA", gender := some "female",
    birthDate := some ⟨1990, 6, 15⟩,
    encounters := [], conditions := [], observations := [],
    immunizations := [], diagnosticReports := [], documentReferences := [],
    claims := [], explanationOfBenefits := [], procedures := [],
    medicationRequests := [], careTeams := [], carePlans := [],
    provenances := [], devices := [], supplyDeliveries := [],
    medications := [], medicationAdministrations := [] }

/-- Closed instance of the C1 theorem at the concrete bundle `bC1a`
(both hypotheses hold by evaluation). -/
theorem fhirC1_witness :
    pC1.id = srcC1a.id ∧ pC1.name = srcC1a.name.head? ∧
    pC1.gender = srcC1a.gender ∧ pC1.birthDate = srcC1a.birthDate :=
  (fhirC1_theorem bC1a).2 pC1 srcC1a rfl rfl

/-- `filterMap` with a keep-or-drop function is `filter`. -/
theorem filterMap_guardLike (p : α → Bool) (l : List α) :
    l.filterMap (fun a => if p a then some a else none) = l.filter p := by
  induction l with
  | nil => rfl
  | cons a l ih =>
    cases hp : p a <;> simp [List.filterMap_cons, List.filter_cons, hp, ih]

/-- `processEntries` equals filtering the Bundle's resource list by
resourceType: entries are kept exactly when their resource matches, in
Bundle order. -/
theorem processEntries_eq_filter (rt : String) (b : Bundle) :
    processEntries rt b =
      (Bundle.allResources b).filter fun r => r.resourceType == some rt := by
  unfold processEntries Bundle.allResources
  have hfun : (fun e : Entry =>
      match e.resource with
      | some r => if r.resourceType == some rt then some r else none
      | none => none) =
      fun e : Entry => e.resource.bind fun r =>
        if r.resourceType == some rt then some r else none := by
    funext e; cases e.resource <;> rfl
  rw [hfun, ← List.filterMap_filterMap]
  exact filterMap_guardLike _ _

/-- The designated type of each named collection of a built Patient. -/
def patientCollections (p : Patient) : List (String × List Resource) :=
  [("Encounter", p.encounters), ("Condition", p.conditions),
   ("Observation", p.observations), ("Immunization", p.immunizations),
   ("DiagnosticReport", p.diagnosticReports),
   ("DocumentReference", p.documentReferences), ("Claim", p.claims),
   ("ExplanationOfBenefit", p.explanationOfBenefits),
   ("Procedure", p.procedures), ("MedicationRequest", p.medicationRequests),
   ("CareTeam", p.careTeams), ("CarePlan", p.carePlans),
   ("Provenance", p.provenances), ("Device", p.devices),
   ("SupplyDelivery", p.supplyDeliveries), ("Medication", p.medications),
   ("MedicationAdministration", p.medicationAdministrations)]

/-- The resource types `createPatient` recognises. -/
def knownResourceTypes : List String :=
  ["Patient", "Encounter", "Condition", "Observation", "Immunization",
   "DiagnosticReport", "DocumentReference", "Claim", "ExplanationOfBenefit",
   "Procedure", "MedicationRequest", "CareTeam", "CarePlan", "Provenance",
   "Device", "SupplyDelivery", "Medication", "MedicationAdministration"]

/-- A Bundle with one more entry appended. -/
def appendEntry (b : Bundle) (e : Entry) : Bundle :=
  ⟨some (b.entries ++ [e])⟩

/-- An entry whose resource (if any) carries no recognised resource type. -/
def entryTypeUnknown (e : Entry) : Prop :=
  ∀ r, e.resource = some r → ∀ t, r.resourceType = some t →
    t ∉ knownResourceTypes

theorem processEntries_appendEntry (rt : String) (b : Bundle) (e : Entry)
    (hrt : rt ∈ knownResourceTypes) (he : entryTypeUnknown e) :
    processEntries rt (appendEntry b e) = processEntries rt b := by
  unfold processEntries appendEntry Bundle.entries
  simp only [Option.getD_some, List.filterMap_append]
  have : (List.filterMap (fun e =>
      match e.resource with
      | some r => if r.resourceType == some rt then some r else none
      | none => none) [e]) = [] := by
    cases her : e.resource with
    | none => simp [her]
    | some r =>
      cases hr : r.resourceType with
      | none => simp [her, hr]
      | some t =>
        have := he r her t hr
        have hne : t ≠ rt := fun hEq => this (hEq ▸ hrt)
        simp [her, hr, hne]
  rw [this, List.append_nil]

theorem firstPatientResource_appendEntry (b : Bundle) (e : Entry)
    (he : entryTypeUnknown e) :
    firstPatientResource (appendEntry b e) = firstPatientResource b := by
  unfold firstPatientResource appendEntry Bundle.entries
  simp only [Option.getD_some, List.find?_append]
  have : (List.find? (fun e => e.resource.any fun r =>
      r.resourceType == some "Patient") [e]) = none := by
    cases her : e.resource with
    | none => simp [her]
    | some r =>
      cases hr : r.resourceType with
      | none => simp [her, hr]
      | some t =>
        have := he r her t hr
        have hne : t ≠ "Patient" := fun hEq => this (hEq ▸ by decide)
        simp [her, hr, hne]
  rw [this]
  cases b.entry.getD [] |>.find? (fun e => e.resource.any fun r =>
      r.resourceType == some "Patient") <;> rfl

/-- Claim C2: when a Patient is built from a Bundle, each named
collection is exactly the subsequence of the Bundle's resources of its
designated type (in Bundle order); every element is of that type;
a collection with no matching entries is `[]`; and pushing an entry of
an unrecognised resource type onto the Bundle leaves the built Patient
unchanged (no error). -/
theorem fhirC2_theorem (b : Bundle) (p : Patient)
    (hp : createPatient b = .ok p) :
    (∀ ty coll, (ty, coll) ∈ patientCollections p →
      coll = (Bundle.allResources b).filter (fun r => r.resourceType == some ty) ∧
      (∀ r ∈ coll, r.resourceType = some ty) ∧
      ((∀ r ∈ Bundle.allResources b, r.resourceType ≠ some ty) → coll = [])) ∧
    (∀ e, entryTypeUnknown e → createPatient (appendEntry b e) = .ok p) := by
  have hsrc : ∃ src, firstPatientResource b = some src := by
    unfold createPatient at hp
    cases h : firstPatientResource b with
    | none => rw [h] at hp; exact absurd hp (by simp)
    | some src => exact ⟨src, rfl⟩
  obtain ⟨src, hsrc⟩ := hsrc
  have hpdef : p = {
      id := src.id, name := src.name.head?, gender := src.gender,
      birthDate := src.birthDate,
      encounters := processEntries "Encounter" b
      conditions := processEntries "Condition" b
      observations := processEntries "Observation" b
      immunizations := processEntries "Immunization" b
      diagnosticReports := processEntries "DiagnosticReport" b
      documentReferences := processEntries "DocumentReference" b
      claims := processEntries "Claim" b
      explanationOfBenefits := processEntries "ExplanationOfBenefit" b
      procedures := processEntries "Procedure" b
      medicationRequests := processEntries "MedicationRequest" b
      careTeams := processEntries "CareTeam" b
      carePlans := processEntries "CarePlan" b
      provenances := processEntries "Provenance" b
      devices := processEntries "Device" b
      supplyDeliveries := processEntries "SupplyDelivery" b
      medications := processEntries "Medication" b
      medicationAdministrations := processEntries "MedicationAdministration" b } := by
    unfold createPatient at hp
    rw [hsrc] at hp
    cases hp
    rfl
  constructor
  · intro ty coll hmem
    have hcoll : coll = processEntries ty b := by
      subst hpdef
      simp only [patientCollections, List.mem_cons, List.mem_singleton,
        Prod.mk.injEq, List.not_mem_nil] at hmem
      rcases hmem with h|h|h|h|h|h|h|h|h|h|h|h|h|h|h|h|h|h
      all_goals first
        | exact h.elim
        | (obtain ⟨h1, h2⟩ := h; subst h1; subst h2; rfl)
    subst hcoll
    rw [processEntries_eq_filter]
    refine ⟨rfl, ?_, ?_⟩
    · intro r hr
      have := List.of_mem_filter hr
      simpa using this
    · intro hnone
      rw [List.filter_eq_nil_iff]
      intro r hr
      simpa using hnone r hr
  · intro e hunk
    have hknown : ∀ rt, rt ∈ knownResourceTypes →
        processEntries rt (appendEntry b e) = processEntries rt b :=
      fun rt hrt => processEntries_appendEntry rt b e hrt hunk
    unfold createPatient
    rw [firstPatientResource_appendEntry b e hunk, hsrc]
    rw [hpdef]
    refine congrArg Except.ok ?_
    congr 1
    all_goals first | rfl | exact hknown _ (by decide)

/-- A concrete Encounter resource. -/
def encC2 : Resource := { resourceType := some "Encounter", id := some "e1" }

/-- A concrete two-entry Bundle: one Patient, one Encounter. -/
def bC2 : Bundle := ⟨some [⟨some srcC1a⟩, ⟨some encC2⟩]⟩

/-- The Patient `createPatient` builds from `bC2`. -/
def pC2 : Patient :=
  { id := some "p1", name := some "HumanNameA", gender := some "female",
    birthDate := some ⟨1990, 6, 15⟩,
    encounters := [encC2], conditions := [], observations := [],
    immunizations := [], diagnosticReports := [], documentReferences := [],
    claims := [], explanationOfBenefits := [], procedures := [],
    medicationRequests := [], careTeams := [], carePlans := [],
    provenances := [], devices := [], supplyDeliveries := [],
    medications := [], medicationAdministrations := [] }

/-- Closed instance of the C2 theorem at the concrete bundle `bC2` and
its encounter collection. -/
theorem fhirC2_witness :
    pC2.encounters = (Bundle.allResources bC2).filter
      (fun r => r.resourceType == some "Encounter") ∧
    (∀ r ∈ pC2.encounters, r.resourceType = some "Encounter") ∧
    ((∀ r ∈ Bundle.allResources bC2, r.resourceType ≠ some "Encounter") →
      pC2.encounters = []) :=
  (fhirC2_theorem bC2 pC2 rfl).1 "Encounter" pC2.encounters
    (List.mem_cons_self _ _)

/-- `mkEvent` produces a record exactly when the candidate has a start. -/
theorem mkEvent_isSome (bd : Option JSDate) (c : Candidate) :
    (mkEvent bd c).isSome = c.s.isSome := by
  unfold mkEvent
  cases c.s <;> rfl

/-- `filterMap mkEvent` keeps one record per candidate with a start. -/
theorem length_filterMap_mkEvent (bd : Option JSDate) (l : List Candidate) :
    (l.filterMap (mkEvent bd)).length = (l.filter (fun c => c.s.isSome)).length := by
  induction l with
  | nil => rfl
  | cons c cs ih =>
    rw [List.filterMap_cons, List.filter_cons]
    cases hs : c.s with
    | none =>
      have : mkEvent bd c = none := by unfold mkEvent; rw [hs]
      simp [this, hs, ih]
    | some s =>
      have : (mkEvent bd c).isSome = true := by rw [mkEvent_isSome, hs]; rfl
      obtain ⟨e, he⟩ := Option.isSome_iff_exists.mp this
      simp [he, hs, ih]

/-- Claim C3: every event history record carries a start (candidates
lacking one are dropped: the history has exactly one record per candidate
with a start), the history is sorted ascending by start, and re-sorting
it by start date returns the identical list. -/
theorem fhirC3_theorem (ab : String → String) (p : Patient) :
    (getPatientEventHistory ab p).length =
      ((eventCandidates ab p).filter (fun c => c.s.isSome)).length ∧
    (getPatientEventHistory ab p).Sorted eventLE ∧
    (getPatientEventHistory ab p).insertionSort eventLE =
      getPatientEventHistory ab p := by
  unfold getPatientEventHistory
  refine ⟨?_, ?_, ?_⟩
  · rw [List.length_insertionSort]
    exact length_filterMap_mkEvent _ _
  · exact List.sorted_insertionSort eventLE _
  · exact (List.sorted_insertionSort eventLE _).insertionSort_eq

/-- Claim C4 (amended): `calculateEGFR` returns the sentinel `0` whenever
creatinine, age or gender is missing OR falsy (creatinine value `0`,
computed age `0`, empty gender string); otherwise it returns the CKD-EPI
2009 expression `141 * min(cr/k,1)^a * max(cr/k,1)^(-1.209) * 0.993^age`
with `k = 0.7`, `a = -0.329` for `"female"` and `k = 0.9`, `a = -0.411`
otherwise, rounded to one decimal place. -/
theorem fhirC4_theorem (p : Patient) (t : JSDate) :
    ((jsFalsyNum (creatinineValue p) || jsFalsyInt (getAge p t) ||
        jsFalsyStr p.gender) = true → calculateEGFR p t = 0) ∧
    (∀ cr age g, creatinineValue p = some cr → ¬ cr = 0 →
      getAge p t = some age → ¬ age = 0 → p.gender = some g → ¬ g = "" →
      calculateEGFR p t =
        round1 (141 *
          (min ((cr : ℝ) / (if g = "female" then 0.7 else 0.9)) 1) ^
            (if g = "female" then (-0.329 : ℝ) else -0.411) *
          (max ((cr : ℝ) / (if g = "female" then 0.7 else 0.9)) 1) ^
            (-1.209 : ℝ) *
          (0.993 : ℝ) ^ (age : ℝ))) := by
  constructor
  · intro h
    unfold calculateEGFR
    rw [if_pos h]
  · intro cr age g hcr hcr0 hage hage0 hg hg0
    unfold calculateEGFR
    rw [hcr, hage, hg]
    have hfal : (jsFalsyNum (some cr) || jsFalsyInt (some age) ||
        jsFalsyStr (some g)) = false := by
      simp [jsFalsyNum, jsFalsyInt, jsFalsyStr, hcr0, hage0, hg0]
    rw [if_neg (by simp [hfal])]
    unfold egfrExpr
    simp only [Option.getD_some]
    by_cases hgf : g = "female"
    · simp [hgf]
    · have : ((some g == some "female") : Bool) = false := by simp [hgf]
      simp [this, hgf]

/-- A creatinine observation (LOINC 2160-0) with value 1 mg/dL. -/
def obsCr : Resource :=
  { resourceType := some "Observation",
    code := some { coding := some [{ system := some loincSystem, code := some "2160-0" }] },
    valueQuantity := some { value := some 1, unit := some "mg/dL" } }

/-- A female patient born 2024-01-10 with a creatinine observation. -/
def pC4 : Patient :=
  { id := some "p4", name := none, gender := some "female",
    birthDate := some ⟨2024, 1, 10⟩,
    encounters := [], conditions := [], observations := [obsCr],
    immunizations := [], diagnosticReports := [], documentReferences := [],
    claims := [], explanationOfBenefits := [], procedures := [],
    medicationRequests := [], careTeams := [], carePlans := [],
    provenances := [], devices := [], supplyDeliveries := [],
    medications := [], medicationAdministrations := [] }

/-- "Today" for the C4 counterexample: the patient is 0 years old. -/
def tC4 : JSDate := ⟨2024, 6, 1⟩

/-- `round1` moves its argument by less than 1/20. -/
theorem round1_gt (z : ℝ) : z - 1 / 20 < round1 z := by
  unfold round1
  rw [round_eq]
  have h := Int.sub_one_lt_floor (10 * z + 1 / 2)
  have h2 : 10 * z - 1 / 2 < (⌊10 * z + 1 / 2⌋ : ℝ) := by linarith
  linarith

/-- Claim C4 counterexample: with creatinine present (value 1), gender
female and a computed age of 0, every input the claim requires is
present, yet the code returns the sentinel 0 while the claim's formula
value is positive (the falsy test treats age 0 as missing). -/
theorem fhirC4_counterexample :
    creatinineValue pC4 = some 1 ∧ getAge pC4 tC4 = some 0 ∧
    pC4.gender = some "female" ∧ calculateEGFR pC4 tC4 = 0 ∧
    calculateEGFR pC4 tC4 ≠
      round1 (141 * (min ((1 : ℝ) / 0.7) 1) ^ (-0.329 : ℝ) *
        (max ((1 : ℝ) / 0.7) 1) ^ (-1.209 : ℝ) * (0.993 : ℝ) ^ ((0 : ℤ) : ℝ)) := by
  have h1 : creatinineValue pC4 = some 1 := by decide
  have h2 : getAge pC4 tC4 = some 0 := by decide
  have h4 : calculateEGFR pC4 tC4 = 0 := by
    unfold calculateEGFR
    rw [if_pos]
    rw [h2]
    decide
  refine ⟨h1, h2, rfl, h4, ?_⟩
  rw [h4]
  have hmin : min ((1 : ℝ) / 0.7) 1 = 1 := min_eq_right (by norm_num)
  have hmax : max ((1 : ℝ) / 0.7) 1 = (1 : ℝ) / 0.7 := max_eq_left (by norm_num)
  have hcast : ((0 : ℤ) : ℝ) = 0 := by norm_num
  have hv : (141 : ℝ) * (min ((1 : ℝ) / 0.7) 1) ^ (-0.329 : ℝ) *
      (max ((1 : ℝ) / 0.7) 1) ^ (-1.209 : ℝ) * (0.993 : ℝ) ^ ((0 : ℤ) : ℝ) =
      141 * ((10 / 7 : ℝ) ^ (-1.209 : ℝ)) := by
    rw [hmin, hmax, hcast, Real.one_rpow, Real.rpow_zero]
    norm_num
  have hlow : (49 / 100 : ℝ) ≤ (10 / 7 : ℝ) ^ (-1.209 : ℝ) := by
    have heq : (10 / 7 : ℝ) ^ ((-2 : ℤ) : ℝ) = 49 / 100 := by
      rw [Real.rpow_intCast]
      norm_num
    calc (49 / 100 : ℝ) = (10 / 7 : ℝ) ^ ((-2 : ℤ) : ℝ) := heq.symm
      _ ≤ (10 / 7 : ℝ) ^ (-1.209 : ℝ) :=
        Real.rpow_le_rpow_of_exponent_le (by norm_num) (by push_cast; norm_num)
  have hz : (69 : ℝ) ≤ 141 * ((10 / 7 : ℝ) ^ (-1.209 : ℝ)) := by nlinarith
  have hpos : (0 : ℝ) < round1 (141 * ((10 / 7 : ℝ) ^ (-1.209 : ℝ))) := by
    have := round1_gt (141 * ((10 / 7 : ℝ) ^ (-1.209 : ℝ)))
    linarith
  rw [hv]
  exact fun heq => absurd heq.symm (ne_of_gt hpos)

/-- Closed instance of the C4 theorem: a patient without a creatinine
observation gets the sentinel 0, and a female patient aged 30 with
creatinine 1 gets the CKD-EPI expression. -/
theorem fhirC4_witness :
    calculateEGFR pC1 tC4 = 0 ∧
    calculateEGFR pC4 ⟨2054, 6, 1⟩ =
      round1 (141 *
        (min (((1 : ℚ) : ℝ) / (if "female" = "female" then 0.7 else 0.9)) 1) ^
          (if "female" = "female" then (-0.329 : ℝ) else -0.411) *
        (max (((1 : ℚ) : ℝ) / (if "female" = "female" then 0.7 else 0.9)) 1) ^
          (-1.209 : ℝ) *
        (0.993 : ℝ) ^ ((30 : ℤ) : ℝ)) :=
  ⟨(fhirC4_theorem pC1 tC4).1 (by decide),
   (fhirC4_theorem pC4 ⟨2054, 6, 1⟩).2 1 30 "female"
     (by decide) (by decide) (by decide) (by decide) rfl (by decide)⟩

/-- Claim C5 (amended): `calculateBMI` reads the FIRST weight observation
(LOINC 29463-7) and the FIRST height observation (LOINC 8302-2) in
collection order; it returns `null` when either is missing or zero,
otherwise `weight / (height/100)^2`. -/
theorem fhirC5_theorem (p : Patient) :
    ((jsFalsyNum (firstObsValue p "29463-7") ||
        jsFalsyNum (firstObsValue p "8302-2")) = true → calculateBMI p = none) ∧
    (∀ w h, firstObsValue p "29463-7" = some w → ¬ w = 0 →
      firstObsValue p "8302-2" = some h → ¬ h = 0 →
      calculateBMI p = some (w / (h / 100) ^ 2)) := by
  constructor
  · intro hfal
    unfold calculateBMI
    rw [if_pos hfal]
  · intro w h hw hw0 hh hh0
    unfold calculateBMI
    rw [hw, hh]
    rw [if_neg (by simp [jsFalsyNum, hw0, hh0])]
    rfl

/-- The "most recent" (maximum `effectiveDateTime`) observation with a
given LOINC code, by the library's latest-resolution reduce. -/
def latestObsWith (loinc : String) (p : Patient) : Option Resource :=
  match p.observations.filter (hasLoinc loinc) with
  | [] => none
  | x :: xs => some (xs.foldl (fun latest current =>
      if jsGTOpt current.effectiveDateTime latest.effectiveDateTime
      then current else latest) x)

/-- Follows the spec's words (claim C5): "`calculateBMI` looks up the
most recent weight observation (LOINC 29463-7) and the most recent
height observation (LOINC 8302-2); if either is absent it reports
'unavailable' (null); otherwise it returns weight divided by the square
of the height converted from centimeters to meters."  Stated for
comparison against the source's `calculateBMI`. -/
def calculateBMI_specMostRecent (p : Patient) : Option ℚ :=
  match ((latestObsWith "29463-7" p).bind (·.valueQuantity)).bind (·.value),
      ((latestObsWith "8302-2" p).bind (·.valueQuantity)).bind (·.value) with
  | some w, some h => some (w / (h / 100) ^ 2)
  | _, _ => none

/-- A weight observation with value 0 kg, dated 2020. -/
def obsW0 : Resource :=
  { resourceType := some "Observation",
    code := some { coding := some [{ system := some loincSystem, code := some "29463-7" }] },
    valueQuantity := some { value := some 0, unit := some "kg" },
    effectiveDateTime := some ⟨2020, 1, 1⟩ }

/-- A weight observation with value 70 kg, dated 2024 (the most recent). -/
def obsW70 : Resource :=
  { resourceType := some "Observation",
    code := some { coding := some [{ system := some loincSystem, code := some "29463-7" }] },
    valueQuantity := some { value := some 70, unit := some "kg" },
    effectiveDateTime := some ⟨2024, 1, 1⟩ }

/-- A height observation with value 175 cm, dated 2024. -/
def obsH175 : Resource :=
  { resourceType := some "Observation",
    code := some { coding := some [{ system := some loincSystem, code := some "8302-2" }] },
    valueQuantity := some { value := some 175, unit := some "cm" },
    effectiveDateTime := some ⟨2024, 1, 1⟩ }

/-- A patient whose first weight observation (value 0, older) precedes
the most recent one (value 70). -/
def pC5 : Patient :=
  { id := some "p5", name := none, gender := none, birthDate := none,
    encounters := [], conditions := [], observations := [obsW0, obsW70, obsH175],
    immunizations := [], diagnosticReports := [], documentReferences := [],
    claims := [], explanationOfBenefits := [], procedures := [],
    medicationRequests := [], careTeams := [], carePlans := [],
    provenances := [], devices := [], supplyDeliveries := [],
    medications := [], medicationAdministrations := [] }

/-- Claim C5 counterexample: the claim's most-recent semantics yields
`70 / 1.75^2 = 160/7`, but the code takes the first matching observation
(value 0, which the falsy test then turns into `null`). -/
theorem fhirC5_counterexample :
    calculateBMI pC5 = none ∧
    calculateBMI_specMostRecent pC5 = some (160 / 7) ∧
    calculateBMI pC5 ≠ calculateBMI_specMostRecent pC5 := by
  have h1 : calculateBMI pC5 = none := by decide
  have h2 : calculateBMI_specMostRecent pC5 = some ((70 : ℚ) / ((175 : ℚ) / 100) ^ 2) := rfl
  have h3 : ((70 : ℚ) / ((175 : ℚ) / 100) ^ 2) = 160 / 7 := by norm_num
  refine ⟨h1, h2.trans (congrArg some h3), ?_⟩
  rw [h1, h2]
  simp

/-- A patient with a single weight (70) and height (175) observation. -/
def pC5w : Patient :=
  { id := some "p5w", name := none, gender := none, birthDate := none,
    encounters := [], conditions := [], observations := [obsW70, obsH175],
    immunizations := [], diagnosticReports := [], documentReferences := [],
    claims := [], explanationOfBenefits := [], procedures := [],
    medicationRequests := [], careTeams := [], carePlans := [],
    provenances := [], devices := [], supplyDeliveries := [],
    medications := [], medicationAdministrations := [] }

/-- Closed instance of the C5 theorem: weight 70 and height 175 give
`70 / 1.75^2` (which is `160/7 ≈ 22.857`, the spec's `22.9` within
rounding). -/
theorem fhirC5_witness :
    calculateBMI pC5w = some ((70 : ℚ) / ((175 : ℚ) / 100) ^ 2) :=
  (fhirC5_theorem pC5w).2 70 175 (by decide) (by decide) (by decide) (by decide)

/-- A Provenance targeting `Condition/A` whose agent coding carries the
code `author`. -/
def provC6 : Resource :=
  { resourceType := some "Provenance", id := some "prov1",
    target := some [{ reference := some "Condition/A" }],
    agent := some [{ type := some { coding := some [{ code := some "author" }] } }] }

/-- A patient holding only `provC6`. -/
def pC6 : Patient :=
  { id := some "p6", name := none, gender := none, birthDate := none,
    encounters := [], conditions := [], observations := [],
    immunizations := [], diagnosticReports := [], documentReferences := [],
    claims := [], explanationOfBenefits := [], procedures := [],
    medicationRequests := [], careTeams := [], carePlans := [],
    provenances := [provC6], devices := [], supplyDeliveries := [],
    medications := [], medicationAdministrations := [] }

/-- Claim C6, evaluated at the failing input: `provC6` matches the
target `"A"` — and is returned when the agent-type filter is supplied —
yet a call WITHOUT a relationship type returns the empty list, because
`code.code === undefined` only matches codings lacking a `code`.  The
four internal callers (`getResourceTimeline`, `getConditionHistory`,
`getEncounterDetails`, `getCarePlanDetails`) all call with one argument
and so receive `[]` on such data. -/
theorem fhirC6_theorem :
    getRelatedResources pC6 "A" none = [] ∧
    pC6.provenances.filter (targetMatches "A") = [provC6] ∧
    getRelatedResources pC6 "A" (some "author") = [provC6] := by
  refine ⟨by decide, by decide, by decide⟩

/-- The outcome of loading one source of a batch. -/
def loadResult (fetch : String → Except String Bundle) (basePath file : String) :
    Except String Patient :=
  loadPatient fetch (resolvePath basePath file)

/-- The patients of the sources that load, in source order. -/
def okPatients (fetch : String → Except String Bundle) (basePath : String)
    (files : List String) : List Patient :=
  files.filterMap fun f => (loadResult fetch basePath f).toOption

/-- The `{file, error}` pairs of the sources that fail, in source order. -/
def errRecords (fetch : String → Except String Bundle) (basePath : String)
    (files : List String) : List (String × String) :=
  files.filterMap fun f =>
    match loadResult fetch basePath f with
    | .error e => some (f, e)
    | .ok _ => none

theorem foldlM_fileStep_continue (fetch : String → Except String Bundle)
    (basePath : String) (files : List String)
    (acc : List Patient × List (String × String)) :
    files.foldlM (fileStep fetch basePath true) acc =
      .ok (acc.1 ++ okPatients fetch basePath files,
           acc.2 ++ errRecords fetch basePath files) := by
  induction files generalizing acc with
  | nil => simp [okPatients, errRecords, List.foldlM_nil]; rfl
  | cons f fs ih =>
    rw [List.foldlM_cons]
    unfold fileStep
    cases hl : loadResult fetch basePath f with
    | ok patient =>
      unfold loadResult at hl
      rw [hl]
      show fs.foldlM (fileStep fetch basePath true) (acc.1 ++ [patient], acc.2) = _
      rw [ih]
      unfold okPatients errRecords loadResult
      rw [List.filterMap_cons, List.filterMap_cons]
      simp [hl, List.append_assoc, Except.toOption]
    | error e =>
      unfold loadResult at hl
      rw [hl]
      show fs.foldlM (fileStep fetch basePath true) (acc.1, acc.2 ++ [(f, e)]) = _
      rw [ih]
      unfold okPatients errRecords loadResult
      rw [List.filterMap_cons, List.filterMap_cons]
      simp [hl, List.append_assoc, Except.toOption]

theorem chunksAux_flatten {α : Type _} (batchSize : ℕ) (hb : batchSize ≠ 0) :
    ∀ (fuel : ℕ) (l : List α), l.length ≤ fuel →
      (chunksAux batchSize fuel l).flatten = l := by
  intro fuel
  induction fuel with
  | zero =>
    intro l hl
    rw [Nat.le_zero] at hl
    rw [List.length_eq_zero] at hl
    subst hl
    rfl
  | succ fuel ih =>
    intro l hl
    cases l with
    | nil => rfl
    | cons x xs =>
      rw [chunksAux, if_neg hb, List.flatten_cons]
      have hbpos : 0 < batchSize := Nat.pos_of_ne_zero hb
      rw [ih ((x :: xs).drop batchSize)
        (by simp only [List.length_drop, List.length_cons] at hl ⊢; omega)]
      exact List.take_append_drop batchSize (x :: xs)

theorem chunks_flatten {α : Type _} (batchSize : ℕ) (hb : batchSize ≠ 0) :
    ∀ l : List α, (chunks batchSize l).flatten = l := fun l =>
  chunksAux_flatten batchSize hb l.length l le_rfl

theorem foldlM_chunks_continue (fetch : String → Except String Bundle)
    (basePath : String) (batchSize : ℕ) (hb : batchSize ≠ 0)
    (files : List String) :
    (chunks batchSize files).foldlM
        (fun acc batch => batch.foldlM (fileStep fetch basePath true) acc)
        (([], []) : List Patient × List (String × String)) =
      .ok (okPatients fetch basePath files, errRecords fetch basePath files) := by
  have key : ∀ (cs : List (List String)) (acc : List Patient × List (String × String)),
      cs.foldlM (fun acc batch => batch.foldlM (fileStep fetch basePath true) acc) acc =
        .ok (acc.1 ++ okPatients fetch basePath cs.flatten,
             acc.2 ++ errRecords fetch basePath cs.flatten) := by
    intro cs
    induction cs with
    | nil => intro acc; simp [okPatients, errRecords]; rfl
    | cons c cs ih =>
      intro acc
      rw [List.foldlM_cons, foldlM_fileStep_continue]
      show cs.foldlM _ _ = _
      rw [ih]
      unfold okPatients errRecords
      simp [List.flatten_cons, List.filterMap_append, List.append_assoc]
  rw [key (chunks batchSize files) ([], []), chunks_flatten batchSize hb files]
  simp

/-- Characterisation of `processFiles` with `continueOnError = true` and a
positive batch size: the outcome depends only on which JSON sources load. -/
theorem processFiles_char (fetch : String → Except String Bundle)
    (files : List String) (batchSize : ℕ) (hb : batchSize ≠ 0)
    (basePath : String) :
    processFiles fetch files batchSize true basePath =
      (if files.filter isJsonSource = [] then
        .error "No valid FHIR JSON files found"
      else if okPatients fetch basePath (files.filter isJsonSource) = [] ∧
          errRecords fetch basePath (files.filter isJsonSource) ≠ [] then
        .error ("Failed to load any patients. First error: " ++
          (((errRecords fetch basePath (files.filter isJsonSource)).head?.map
            Prod.snd).getD ""))
      else
        .ok { patients := okPatients fetch basePath (files.filter isJsonSource)
              errors := if errRecords fetch basePath (files.filter isJsonSource) = []
                then none else some (errRecords fetch basePath (files.filter isJsonSource))
              summary := {
                total := (files.filter isJsonSource).length
                successful := (okPatients fetch basePath (files.filter isJsonSource)).length
                failed := (errRecords fetch basePath (files.filter isJsonSource)).length } }) := by
  unfold processFiles
  by_cases hempty : files.filter isJsonSource = []
  · rw [if_pos hempty, if_pos hempty]
  · rw [if_neg hempty, if_neg hempty,
      foldlM_chunks_continue fetch basePath batchSize hb]

/-- Each source contributes to exactly one of `okPatients`/`errRecords`. -/
theorem okPatients_errRecords_length (fetch : String → Except String Bundle)
    (basePath : String) (files : List String) :
    (okPatients fetch basePath files).length +
      (errRecords fetch basePath files).length = files.length := by
  induction files with
  | nil => rfl
  | cons f fs ih =>
    unfold okPatients errRecords at *
    rw [List.filterMap_cons, List.filterMap_cons]
    cases hl : loadResult fetch basePath f with
    | ok patient =>
      show (patient :: (fs.filterMap fun f => (loadResult fetch basePath f).toOption)).length +
        (fs.filterMap fun f => match loadResult fetch basePath f with
          | .error e => some (f, e) | .ok _ => none).length = fs.length + 1
      rw [List.length_cons]
      omega
    | error e =>
      show (fs.filterMap fun f => (loadResult fetch basePath f).toOption).length +
        ((f, e) :: (fs.filterMap fun f => match loadResult fetch basePath f with
          | .error e => some (f, e) | .ok _ => none)).length = fs.length + 1
      rw [List.length_cons]
      omega

/-- Claim C7: a `processFiles` call with `continueOnError` whose sources
all pass the JSON-source filter and which returns a result has
`total` = number of sources, `successful` = number of loaded patients,
`failed` = number of per-source errors, `total = successful + failed`,
and `errors` is `null` exactly when no source failed, otherwise a list
with one entry per failed source. -/
theorem fhirC7_theorem (fetch : String → Except String Bundle)
    (files : List String) (batchSize : ℕ) (basePath : String) (r : BatchResult)
    (hb : batchSize ≠ 0) (hall : ∀ f ∈ files, isJsonSource f = true)
    (hok : processFiles fetch files batchSize true basePath = .ok r) :
    r.summary.total = files.length ∧
    r.summary.successful = r.patients.length ∧
    r.summary.failed = (errRecords fetch basePath files).length ∧
    r.summary.total = r.summary.successful + r.summary.failed ∧
    r.patients = okPatients fetch basePath files ∧
    r.errors = (if errRecords fetch basePath files = [] then none
      else some (errRecords fetch basePath files)) ∧
    (∀ es, r.errors = some es → es.length = r.summary.failed) := by
  have hfilter : files.filter isJsonSource = files := List.filter_eq_self.mpr hall
  rw [processFiles_char fetch files batchSize hb basePath, hfilter] at hok
  by_cases h1 : files = []
  · rw [if_pos h1] at hok
    exact absurd hok (by simp)
  · rw [if_neg h1] at hok
    by_cases h2 : okPatients fetch basePath files = [] ∧
        errRecords fetch basePath files ≠ []
    · rw [if_pos h2] at hok
      exact absurd hok (by simp)
    · rw [if_neg h2] at hok
      have hr := (Except.ok.injEq _ _).mp hok.symm
      subst hr
      refine ⟨rfl, rfl, rfl, ?_, rfl, rfl, ?_⟩
      · exact (okPatients_errRecords_length fetch basePath files).symm
      · intro es hes
        by_cases he : errRecords fetch basePath files = []
        · rw [if_pos he] at hes
          exact absurd hes (by simp)
        · rw [if_neg he] at hes
          cases hes
          rfl

/-- Oracle for the C7 witness: every source yields the one-Patient bundle
`bC1a` except `p4.json`, which fails with an HTTP error. -/
def fetch7 : String → Except String Bundle := fun f =>
  if f = "p4.json" then .error "HTTP error! status: 404" else .ok bC1a

/-- Seven JSON sources, one of which fails. -/
def files7 : List String :=
  ["p1.json", "p2.json", "p3.json", "p4.json", "p5.json", "p6.json", "p7.json"]

/-- The batch result of loading `files7` through `fetch7`. -/
def r7 : BatchResult :=
  { patients := [pC1, pC1, pC1, pC1, pC1, pC1]
    errors := some [("p4.json", "Error loading patient data: HTTP error! status: 404")]
    summary := { total := 7, successful := 6, failed := 1 } }

/-- Closed instance of the C7 theorem: 7 sources, `chunkSize = 3`,
`continueOnError = true`, one failing source: summary `{7, 6, 1}` and a
non-null one-entry error list. -/
theorem fhirC7_witness :
    (r7.summary.total = files7.length ∧
      r7.summary.successful = r7.patients.length ∧
      r7.summary.failed = (errRecords fetch7 "" files7).length ∧
      r7.summary.total = r7.summary.successful + r7.summary.failed ∧
      r7.patients = okPatients fetch7 "" files7 ∧
      r7.errors = (if errRecords fetch7 "" files7 = [] then none
        else some (errRecords fetch7 "" files7)) ∧
      (∀ es, r7.errors = some es → es.length = r7.summary.failed)) ∧
    r7.summary = { total := 7, successful := 6, failed := 1 } ∧
    processFiles fetch7 files7 3 true "" = .ok r7 :=
  ⟨fhirC7_theorem fetch7 files7 3 "" r7 (by decide) (by decide) rfl, rfl, rfl⟩

/-- Claim C8: in the error-recording regime (`continueOnError = true`),
when zero sources succeed and at least one per-source error was recorded
the whole call fails with an error surfacing the first recorded error's
message (no partial result is exposed as success); when at least one
source succeeds the call does not fail, and the partial failures appear
only in the `errors` list and `failed` count of the returned result. -/
theorem fhirC8_theorem (fetch : String → Except String Bundle)
    (files : List String) (batchSize : ℕ) (basePath : String)
    (hb : batchSize ≠ 0) :
    (okPatients fetch basePath (files.filter isJsonSource) = [] →
      errRecords fetch basePath (files.filter isJsonSource) ≠ [] →
      processFiles fetch files batchSize true basePath =
        .error ("Failed to load any patients. First error: " ++
          (((errRecords fetch basePath (files.filter isJsonSource)).head?.map
            Prod.snd).getD ""))) ∧
    (okPatients fetch basePath (files.filter isJsonSource) ≠ [] →
      ∃ r, processFiles fetch files batchSize true basePath = .ok r ∧
        r.patients = okPatients fetch basePath (files.filter isJsonSource) ∧
        r.errors = (if errRecords fetch basePath (files.filter isJsonSource) = []
          then none else some (errRecords fetch basePath (files.filter isJsonSource))) ∧
        r.summary.failed =
          (errRecords fetch basePath (files.filter isJsonSource)).length) := by
  rw [processFiles_char fetch files batchSize hb basePath]
  constructor
  · intro hnone hsome
    have hjf : files.filter isJsonSource ≠ [] := by
      intro h
      rw [h] at hsome
      exact hsome rfl
    rw [if_neg hjf, if_pos ⟨hnone, hsome⟩]
  · intro hok
    have hjf : files.filter isJsonSource ≠ [] := by
      intro h
      rw [h] at hok
      exact hok rfl
    rw [if_neg hjf, if_neg (by intro h; exact hok h.1)]
    exact ⟨_, rfl, rfl, rfl, rfl⟩

/-- Oracle for the C8 witness: every source fails. -/
def fetchFail : String → Except String Bundle := fun f =>
  if f = "a.json" then .error "HTTP error! status: 404"
  else .error "HTTP error! status: 500"

/-- Two JSON sources that both fail. -/
def filesFail : List String := ["a.json", "b.json"]

/-- Closed instance of the C8 theorem: when every source fails, the whole
call fails, surfacing the first source's error message. -/
theorem fhirC8_witness :
    processFiles fetchFail filesFail 5 true "" =
      .error ("Failed to load any patients. First error: " ++
        "Error loading patient data: HTTP error! status: 404") :=
  (fhirC8_theorem fetchFail filesFail 5 "" (by decide)).1 (by decide) (by decide)

/-- Two patients with identical resource collections. -/
def sameCollections (p₁ p₂ : Patient) : Prop :=
  p₁.encounters = p₂.encounters ∧ p₁.conditions = p₂.conditions ∧
  p₁.observations = p₂.observations ∧ p₁.immunizations = p₂.immunizations ∧
  p₁.diagnosticReports = p₂.diagnosticReports ∧
  p₁.documentReferences = p₂.documentReferences ∧ p₁.claims = p₂.claims ∧
  p₁.explanationOfBenefits = p₂.explanationOfBenefits ∧
  p₁.procedures = p₂.procedures ∧
  p₁.medicationRequests = p₂.medicationRequests ∧
  p₁.careTeams = p₂.careTeams ∧ p₁.carePlans = p₂.carePlans ∧
  p₁.provenances = p₂.provenances ∧ p₁.devices = p₂.devices ∧
  p₁.supplyDeliveries = p₂.supplyDeliveries ∧
  p₁.medications = p₂.medications ∧
  p₁.medicationAdministrations = p₂.medicationAdministrations

/-- Claim C9 (amended): every derived-view accessor leaves the patient
unchanged (its state-passing translation returns the patient as-is), and
each view is a pure function of the resource collections TOGETHER WITH
the patient's `birthDate` (which `getPatientEventHistory` reads for the
`ageAtEvent` metadata). -/
theorem fhirC9_theorem :
    (∀ (ab : String → String) (p : Patient) (vt c : String) (dec : Bool)
        (sd ed : Option JSDate),
      getVitalsRun p = (getVitals p, p) ∧
      getVitalSignTrendRun p vt = (getVitalSignTrend p vt, p) ∧
      getLabResultsChartRun p = (getLabResultsChart p, p) ∧
      getClinicalNotesHistoryRun ab p dec = (getClinicalNotesHistory ab p dec, p) ∧
      getPatientEventHistoryRun ab p = (getPatientEventHistory ab p, p) ∧
      getObservationHistoryRun p c sd ed = (getObservationHistory p c sd ed, p) ∧
      getEncounterTimelineRun p = (getEncounterTimeline p, p)) ∧
    (∀ (ab : String → String) (p₁ p₂ : Patient),
      sameCollections p₁ p₂ → p₁.birthDate = p₂.birthDate →
      ∀ (vt c : String) (dec : Bool) (sd ed : Option JSDate),
      getVitals p₁ = getVitals p₂ ∧
      getVitalSignTrend p₁ vt = getVitalSignTrend p₂ vt ∧
      getLabResultsChart p₁ = getLabResultsChart p₂ ∧
      getClinicalNotesHistory ab p₁ dec = getClinicalNotesHistory ab p₂ dec ∧
      getPatientEventHistory ab p₁ = getPatientEventHistory ab p₂ ∧
      getObservationHistory p₁ c sd ed = getObservationHistory p₂ c sd ed ∧
      getEncounterTimeline p₁ = getEncounterTimeline p₂) := by
  constructor
  · intro ab p vt c dec sd ed
    refine ⟨rfl, rfl, rfl, rfl, rfl, rfl, rfl⟩
  · intro ab p₁ p₂ hcoll hbd vt c dec sd ed
    obtain ⟨he, hc, ho, hi, hdr, hdoc, hcl, heob, hproc, hmr, hct, hcp, hprov,
      hdev, hsup, hmed, hma⟩ := hcoll
    refine ⟨?_, ?_, ?_, ?_, ?_, ?_, ?_⟩
    · unfold getVitals; rw [ho]
    · unfold getVitalSignTrend getVitals; rw [ho]
    · unfold getLabResultsChart getLabResults getObservationsByCategory; rw [ho]
    · unfold getClinicalNotesHistory; rw [hdoc]
    · unfold getPatientEventHistory eventCandidates
      rw [he, hc, ho, hdoc, hdr, hmr, hi, hcp, hproc, hmed, hbd]
    · unfold getObservationHistory getObservationsByCategory; rw [ho]
    · unfold getEncounterTimeline; rw [he]

/-- A condition with an onset date (enters the event history). -/
def condC9 : Resource :=
  { resourceType := some "Condition", id := some "c1",
    code := some { text := some "Hypertension" },
    onsetDateTime := some ⟨2020, 5, 1⟩ }

/-- A patient born 1990 holding one condition. -/
def pC9a : Patient :=
  { id := some "p9", name := none, gender := none, birthDate := some ⟨1990, 1, 1⟩,
    encounters := [], conditions := [condC9], observations := [],
    immunizations := [], diagnosticReports := [], documentReferences := [],
    claims := [], explanationOfBenefits := [], procedures := [],
    medicationRequests := [], careTeams := [], carePlans := [],
    provenances := [], devices := [], supplyDeliveries := [],
    medications := [], medicationAdministrations := [] }

/-- The same collections, but born 2000. -/
def pC9b : Patient :=
  { id := some "p9", name := none, gender := none, birthDate := some ⟨2000, 1, 1⟩,
    encounters := [], conditions := [condC9], observations := [],
    immunizations := [], diagnosticReports := [], documentReferences := [],
    claims := [], explanationOfBenefits := [], procedures := [],
    medicationRequests := [], careTeams := [], carePlans := [],
    provenances := [], devices := [], supplyDeliveries := [],
    medications := [], medicationAdministrations := [] }

/-- Claim C9 counterexample: two patients with identical resource
collections but different birth dates get different
`getPatientEventHistory` outputs (the `ageAtEvent` metadata reads the
birth date), so that view is not a pure function of the collections
alone. -/
theorem fhirC9_counterexample :
    sameCollections pC9a pC9b ∧
    getPatientEventHistory id pC9a ≠ getPatientEventHistory id pC9b := by
  constructor
  · refine ⟨rfl, rfl, rfl, rfl, rfl, rfl, rfl, rfl, rfl, rfl, rfl, rfl, rfl,
      rfl, rfl, rfl, rfl⟩
  · decide

/-- Closed instance of the C9 theorem: the frame equalities and the
dependence property at a concrete patient. -/
theorem fhirC9_witness :
    getVitals pC9a = getVitals pC9a ∧
    getVitalSignTrend pC9a "heart" = getVitalSignTrend pC9a "heart" ∧
    getLabResultsChart pC9a = getLabResultsChart pC9a ∧
    getClinicalNotesHistory id pC9a true = getClinicalNotesHistory id pC9a true ∧
    getPatientEventHistory id pC9a = getPatientEventHistory id pC9a ∧
    getObservationHistory pC9a "laboratory" none none =
      getObservationHistory pC9a "laboratory" none none ∧
    getEncounterTimeline pC9a = getEncounterTimeline pC9a :=
  fhirC9_theorem.2 id pC9a pC9a
    ⟨rfl, rfl, rfl, rfl, rfl, rfl, rfl, rfl, rfl, rfl, rfl, rfl, rfl, rfl,
      rfl, rfl, rfl⟩ rfl "heart" "laboratory" true none none

/-- Claim C10: `calculateEGFR` returns the sentinel 0 not only when
creatinine, age or gender is structurally absent, but also when a
creatinine observation is present with value 0 or the computed age is 0:
the missing-input check treats any falsy value as missing. -/
theorem fhirC10_theorem (p : Patient) (t : JSDate) :
    ((creatinineValue p = none ∨ getAge p t = none ∨ p.gender = none) →
      calculateEGFR p t = 0) ∧
    (creatinineValue p = some 0 → calculateEGFR p t = 0) ∧
    (getAge p t = some 0 → calculateEGFR p t = 0) := by
  refine ⟨?_, ?_, ?_⟩
  · intro h
    unfold calculateEGFR
    rcases h with h | h | h <;> rw [h] <;>
      simp [jsFalsyNum, jsFalsyInt, jsFalsyStr]
  · intro h
    unfold calculateEGFR
    rw [h]
    simp [jsFalsyNum]
  · intro h
    unfold calculateEGFR
    rw [h]
    simp [jsFalsyInt]

/-- An observation carrying creatinine value 0. -/
def obsCr0 : Resource :=
  { resourceType := some "Observation",
    code := some { coding := some [{ system := some loincSystem, code := some "2160-0" }] },
    valueQuantity := some { value := some 0, unit := some "mg/dL" } }

/-- An adult female patient whose creatinine observation has value 0. -/
def pC10 : Patient :=
  { id := some "p10", name := none, gender := some "female",
    birthDate := some ⟨1990, 1, 1⟩,
    encounters := [], conditions := [], observations := [obsCr0],
    immunizations := [], diagnosticReports := [], documentReferences := [],
    claims := [], explanationOfBenefits := [], procedures := [],
    medicationRequests := [], careTeams := [], carePlans := [],
    provenances := [], devices := [], supplyDeliveries := [],
    medications := [], medicationAdministrations := [] }

/-- Closed instance of the C10 theorem: a present creatinine observation
with value 0 still yields the sentinel 0. -/
theorem fhirC10_witness : calculateEGFR pC10 ⟨2024, 6, 1⟩ = 0 :=
  (fhirC10_theorem pC10 ⟨2024, 6, 1⟩).2.1 (by decide)
